import Mathlib

/-!
# Gateway discovery / load-balancing layer of microservices-cms, embedded in Lean

Shallow embedding of the api-gateway component (`api-gateway/src/index.ts`):
the in-memory service cache, `refreshServiceCache`, the round-robin
`getServiceInstance`, the `authenticateJWT` middleware and the
`createServiceProxy` handler.  JavaScript objects keyed by strings are
modelled as association lists; `Date.now()` is an explicit `Nat` parameter;
the registry fetch (`axios.get`) is an explicit `Except` parameter; the
`jwt.verify` library call is an oracle parameter.
-/

namespace Gateway

/-- `SERVICE_CACHE_TTL = 60000` (1 minute), from the gateway configuration. -/
def SERVICE_CACHE_TTL : Nat := 60000

/-- One registry record, mirroring the gateway's `ServiceInfo` interface
(`id`, `name`, `host`, `port`, `url`, `status`, `lastHeartbeat`, metadata). -/
structure ServiceInfo where
  id : String
  name : String
  host : String
  port : Nat
  url : String
  status : String
  lastHeartbeat : Nat
  metadata : List (String × String) := []
deriving Repr, DecidableEq

/-- Lookup in a string-keyed JavaScript object modelled as an association list. -/
def assocLookup {α : Type} : List (String × α) → String → Option α
  | [], _ => none
  | (k, v) :: rest, key => if k = key then some v else assocLookup rest key

/-- `obj[key] = v` on a string-keyed JavaScript object: replace the binding if
the key is present, append it otherwise. -/
def assocSet {α : Type} : List (String × α) → String → α → List (String × α)
  | [], key, v => [(key, v)]
  | (k, w) :: rest, key, v =>
      if k = key then (key, v) :: rest else (k, w) :: assocSet rest key v

/-- The gateway's mutable module state: `serviceCache`, `lastCacheUpdate`
and the per-name round-robin counters `serviceSelectors`. -/
structure GatewayState where
  serviceCache : List (String × List ServiceInfo)
  lastCacheUpdate : Nat
  serviceSelectors : List (String × Nat)
deriving Repr, DecidableEq

/-- The initial module state: `serviceCache = {}`, `lastCacheUpdate = 0`,
`serviceSelectors = {}`. -/
def initialState : GatewayState :=
  { serviceCache := [], lastCacheUpdate := 0, serviceSelectors := [] }

/-- `serviceCache[serviceName] || []`: the cached instance list for a name. -/
def cacheEntry (st : GatewayState) (name : String) : List ServiceInfo :=
  (assocLookup st.serviceCache name).getD []

/-- The round-robin counter for a name, `0` when not yet initialised. -/
def selectorOf (st : GatewayState) (name : String) : Nat :=
  (assocLookup st.serviceSelectors name).getD 0

/-- One step of the grouping loop body in `refreshServiceCache`:
`if (!groupedServices[service.name]) groupedServices[service.name] = [];
groupedServices[service.name].push(service)`. -/
def insertGrouped (acc : List (String × List ServiceInfo)) (s : ServiceInfo) :
    List (String × List ServiceInfo) :=
  match assocLookup acc s.name with
  | some g => assocSet acc s.name (g ++ [s])
  | none => acc ++ [(s.name, [s])]

/-- The `for (const service of services)` grouping loop. -/
def groupInto (acc : List (String × List ServiceInfo)) :
    List ServiceInfo → List (String × List ServiceInfo)
  | [] => acc
  | s :: rest => groupInto (insertGrouped acc s) rest

/-- Group a registry listing by service name, preserving listing order. -/
def groupByName (services : List ServiceInfo) : List (String × List ServiceInfo) :=
  groupInto [] services

/-- `refreshServiceCache`: skip when the TTL has not elapsed; otherwise fetch
`GET /services` from the registry (the `fetch` parameter), and on success swap
in the freshly grouped map and the new timestamp; the catch block only logs,
so on failure the state is returned unchanged. -/
def refreshServiceCache (st : GatewayState) (now : Nat)
    (fetch : Except Unit (List ServiceInfo)) : GatewayState :=
  if now - st.lastCacheUpdate < SERVICE_CACHE_TTL then st
  else
    match fetch with
    | Except.ok services =>
        { st with serviceCache := groupByName services, lastCacheUpdate := now }
    | Except.error _ => st

/-- `getServiceInstance`: read `serviceCache[serviceName] || []`; empty list
returns `null`; otherwise take index `selector % length`, increment the
selector, and return that element.  Note: the list is used as cached,
with no filtering on `status`. -/
def getServiceInstance (st : GatewayState) (name : String) :
    Option ServiceInfo × GatewayState :=
  let services := cacheEntry st name
  if services.isEmpty then (none, st)
  else
    let sel := selectorOf st name
    (services.get? (sel % services.length),
     { st with serviceSelectors := assocSet st.serviceSelectors name (sel + 1) })

/-- The result list of `n` consecutive `getServiceInstance` calls, threading
the state. -/
def selectSeq (st : GatewayState) (name : String) : Nat → List (Option ServiceInfo)
  | 0 => []
  | n + 1 =>
      let r := getServiceInstance st name
      r.1 :: selectSeq r.2 name n

/-- The decoded JWT payload as the gateway reads it (`user.id`, `user.roles`).
The other payload fields (`username`, `email`) are never read by the gateway. -/
structure Principal where
  id : String
  roles : List String
deriving Repr, DecidableEq

/-- Result of the `authenticateJWT` middleware: either an error response
(status, message) is sent, or the decoded principal is attached and `next()`
is called. -/
inductive AuthOutcome where
  | reject (status : Nat) (error : String)
  | allow (principal : Principal)
deriving Repr, DecidableEq

/-- JavaScript `s.split(' ')` on the character list: split at every single
space, keeping empty fragments. -/
def splitChars : List Char → List (List Char)
  | [] => [[]]
  | c :: rest =>
      let r := splitChars rest
      if c = ' ' then [] :: r
      else
        match r with
        | [] => [[c]]
        | g :: gs => (c :: g) :: gs

/-- `authHeader.split(' ')[1]` as the middleware computes the token. -/
def headerToken (h : String) : Option String :=
  ((splitChars h.data).map (fun cs => String.mk cs)).get? 1

/-- `authenticateJWT` middleware: `!authHeader` (absent or empty) rejects 401
"Authorization header missing"; `!token` (no second space-separated part, or
an empty one) rejects 401 "Token not provided"; a token `jwt.verify` rejects
gives 403 "Invalid or expired token"; otherwise the decoded principal is
attached.  `verify` is the `jwt.verify(token, JWT_SECRET)` oracle. -/
def authenticateJWT (verify : String → Option Principal) (authHeader : Option String) :
    AuthOutcome :=
  match authHeader with
  | none => AuthOutcome.reject 401 "Authorization header missing"
  | some h =>
      if h = "" then AuthOutcome.reject 401 "Authorization header missing"
      else
        match headerToken h with
        | none => AuthOutcome.reject 401 "Token not provided"
        | some t =>
            if t = "" then AuthOutcome.reject 401 "Token not provided"
            else
              match verify t with
              | some p => AuthOutcome.allow p
              | none => AuthOutcome.reject 403 "Invalid or expired token"

/-- If `pat` is a prefix of `s`, return the remainder of `s`, else `none`:
the effect of `s.replace(new RegExp('^' + pat), '')` for a regex-literal
`pat` (the configured service names contain no regex metacharacters). -/
def dropIfStarts : List Char → List Char → Option (List Char)
  | [], s => some s
  | _ :: _, [] => none
  | p :: ps, c :: cs => if p = c then dropIfStarts ps cs else none

/-- The `pathRewrite` callback: strip a leading `/api/<serviceName>` from the
path; when the result is empty return `"/"` (`newPath || '/'`); when the
pattern does not match, `String.replace` leaves the path unchanged. -/
def pathRewrite (serviceName path : String) : String :=
  match dropIfStarts ("/api/" ++ serviceName).data path.data with
  | some rest => if rest = [] then "/" else String.mk rest
  | none => path

/-- `JSON.stringify` of a list of plain role names (no escaping needed for
the role strings the system uses). -/
def rolesEncode (roles : List String) : String :=
  "[" ++ String.intercalate "," (roles.map (fun r => "\"" ++ r ++ "\"")) ++ "]"

/-- An inbound gateway request as the proxy handler sees it: method, url path,
body, (lowercased) headers, and the principal attached by `authenticateJWT`
when the route is protected. -/
structure InboundRequest where
  method : String
  path : String
  body : String
  headers : List (String × String)
  user : Option Principal
deriving Repr, DecidableEq

/-- The outbound upstream request descriptor the proxy produces: the selected
instance's base URL as target, the rewritten path, and the forwarded method,
body and headers (with the proxy-set headers applied via `setHeader`). -/
structure OutboundRequest where
  targetUrl : String
  path : String
  method : String
  body : String
  headers : List (String × String)
deriving Repr, DecidableEq

/-- Outcome of the proxy handler for one request: an error response sent by
the gateway itself, or a forwarded upstream request. -/
inductive ProxyOutcome where
  | errorResponse (status : Nat) (error : String)
  | forward (outbound : OutboundRequest)
deriving Repr, DecidableEq

/-- The cache-maintenance step at the top of the proxy handler:
`if (Date.now() - lastCacheUpdate >= SERVICE_CACHE_TTL) await refreshServiceCache()`.
The refresh is awaited, so the state the selection reads is the post-refresh
state. -/
def proxyCacheState (st : GatewayState) (now : Nat)
    (fetch : Except Unit (List ServiceInfo)) : GatewayState :=
  if SERVICE_CACHE_TTL ≤ now - st.lastCacheUpdate then refreshServiceCache st now fetch
  else st

/-- The correlation id the `onProxyReq` hook sets:
`req.headers['x-correlation-id'] || freshId` — a missing or empty (falsy)
inbound value is replaced by the generated `freshId`. -/
def outCorrelationId (req : InboundRequest) (freshId : String) : String :=
  match assocLookup req.headers "x-correlation-id" with
  | some v => if v = "" then freshId else v
  | none => freshId

/-- The selection-and-forward part of the proxy handler, after the cache
maintenance step: select an instance (`null` answers 503
"Service <name> is not available"), otherwise build the outbound request:
target = instance url, path rewritten, correlation id set, identity headers
set when a principal is attached, everything else forwarded as-is. -/
def proxyAfterCache (serviceName : String) (st : GatewayState)
    (freshId : String) (req : InboundRequest) : ProxyOutcome × GatewayState :=
  match getServiceInstance st serviceName with
  | (none, st') =>
      (ProxyOutcome.errorResponse 503 ("Service " ++ serviceName ++ " is not available"), st')
  | (some inst, st') =>
      let hs1 := assocSet req.headers "x-correlation-id" (outCorrelationId req freshId)
      let hs2 :=
        match req.user with
        | some u => assocSet (assocSet hs1 "x-user-id" u.id) "x-user-roles" (rolesEncode u.roles)
        | none => hs1
      (ProxyOutcome.forward
        { targetUrl := inst.url
          path := pathRewrite serviceName req.path
          method := req.method
          body := req.body
          headers := hs2 }, st')

/-- The full `createServiceProxy(serviceName)` handler for one request:
awaited cache maintenance first, then selection and forwarding. -/
def createServiceProxy (serviceName : String) (st : GatewayState) (now : Nat)
    (fetch : Except Unit (List ServiceInfo)) (freshId : String)
    (req : InboundRequest) : ProxyOutcome × GatewayState :=
  proxyAfterCache serviceName (proxyCacheState st now fetch) freshId req

/-- The `onError` hook of the proxy: whatever the transport error `err` is,
it answers `res.status(500).json({ error: 'Service communication error' })`. -/
def proxyOnError (serviceName : String) (err : String) : Nat × String :=
  (500, "Service communication error")

/-! ## Concrete fixtures used by witnesses and counterexamples -/

/-- Instance A of `content-service` (active). -/
def instA : ServiceInfo :=
  { id := "a", name := "content-service", host := "h1", port := 3003,
    url := "http://h1:3003", status := "active", lastHeartbeat := 100 }

/-- Instance B of `content-service` (active). -/
def instB : ServiceInfo :=
  { instA with id := "b", host := "h2", url := "http://h2:3003" }

/-- Instance C of `content-service` (active). -/
def instC : ServiceInfo :=
  { instA with id := "c", host := "h3", url := "http://h3:3003" }

/-- An instance of `content-service` the monitor marked `stale`
(silent beyond the stale threshold), still listed by the registry. -/
def staleInst : ServiceInfo :=
  { instA with id := "s", host := "h9", url := "http://h9:3003", status := "stale" }

/-- An active instance of `auth-service`. -/
def authInst : ServiceInfo :=
  { id := "au1", name := "auth-service", host := "ah", port := 3002,
    url := "http://ah:3002", status := "active", lastHeartbeat := 100 }

/-- A gateway state whose cache holds A, B, C for `content-service` in
registration order, with a fresh timestamp. -/
def stABC : GatewayState :=
  { serviceCache := [("content-service", [instA, instB, instC])],
    lastCacheUpdate := 60000, serviceSelectors := [] }

/-- A gateway state whose cache holds only the stale instance for
`content-service` (zero active instances for the name), fresh timestamp. -/
def stStaleOnly : GatewayState :=
  { serviceCache := [("content-service", [staleInst])],
    lastCacheUpdate := 60000, serviceSelectors := [] }

/-- A gateway state with a stale-beyond-TTL cache holding no entry for
`auth-service`. -/
def stExpiredEmpty : GatewayState :=
  { serviceCache := [], lastCacheUpdate := 0, serviceSelectors := [] }

/-- A plain unauthenticated GET request to `/api/auth-service/login`
without a correlation header. -/
def reqPlain : InboundRequest :=
  { method := "GET", path := "/api/auth-service/login", body := "",
    headers := [("accept", "application/json")], user := none }

/-- A request carrying an empty-valued `x-correlation-id` header. -/
def reqEmptyCid : InboundRequest :=
  { reqPlain with headers := [("x-correlation-id", "")] }

/-- A request carrying `x-correlation-id: abc123`. -/
def reqCid : InboundRequest :=
  { reqPlain with headers := [("x-correlation-id", "abc123"), ("accept", "application/json")] }

/-- The principal of the concrete verification oracle below. -/
def principalA : Principal := { id := "u1", roles := ["admin"] }

/-- A concrete `jwt.verify` oracle accepting exactly the token `"tok"`. -/
def verifyConc : String → Option Principal :=
  fun t => if t = "tok" then some principalA else none

/-- An authenticated POST request (principal attached by the auth gate). -/
def reqAuthed : InboundRequest :=
  { method := "POST", path := "/api/content-service/posts",
    body := "\x7b\"title\":\"t\"\x7d",
    headers := [("content-type", "application/json")], user := some principalA }

/-- A plain GET request to `/api/content-service/posts`. -/
def reqContent : InboundRequest :=
  { method := "GET", path := "/api/content-service/posts", body := "",
    headers := [], user := none }

/-- A gateway state with one active `auth-service` instance and a fresh
timestamp. -/
def stAuth : GatewayState :=
  { serviceCache := [("auth-service", [authInst])],
    lastCacheUpdate := 60000, serviceSelectors := [] }

/-- An older instance of `auth-service`, cached before the registry view
changed. -/
def oldAuthInst : ServiceInfo :=
  { authInst with id := "au0", host := "oldh", url := "http://oldh:3002" }

/-- A gateway state whose cached snapshot (holding only `oldAuthInst`) is
stale beyond the TTL. -/
def stOldAuth : GatewayState :=
  { serviceCache := [("auth-service", [oldAuthInst])],
    lastCacheUpdate := 0, serviceSelectors := [] }

/-- The post-selection state of `stStaleOnly`. -/
def stStaleAfter : GatewayState :=
  { stStaleOnly with serviceSelectors := [("content-service", 1)] }

/-- The concrete outbound request produced for `reqAuthed` against `stABC`. -/
def c8Out : OutboundRequest :=
  { targetUrl := "http://h1:3003", path := "/posts", method := "POST",
    body := "\x7b\"title\":\"t\"\x7d",
    headers := [("content-type", "application/json"), ("x-correlation-id", "req-1"),
                ("x-user-id", "u1"), ("x-user-roles", "[\"admin\"]")] }

/-- The post-selection state of `stABC`. -/
def stABCAfter : GatewayState :=
  { stABC with serviceSelectors := [("content-service", 1)] }

/-- The concrete outbound request produced for `reqCid` against `stAuth`. -/
def c9Out : OutboundRequest :=
  { targetUrl := "http://ah:3002", path := "/login", method := "GET", body := "",
    headers := [("x-correlation-id", "abc123"), ("accept", "application/json")] }

/-- The post-selection state of `stAuth`. -/
def stAuthAfter : GatewayState :=
  { stAuth with serviceSelectors := [("auth-service", 1)] }

/-! ## Association-list lemmas -/

theorem assocLookup_set_self {α : Type} (l : List (String × α)) (k : String) (v : α) :
    assocLookup (assocSet l k v) k = some v := by
  induction l with
  | nil => simp [assocSet, assocLookup]
  | cons p rest ih =>
      obtain ⟨a, w⟩ := p
      by_cases ha : a = k
      · simp [assocSet, ha, assocLookup]
      · simp [assocSet, ha, assocLookup, ih]

theorem assocLookup_set_ne {α : Type} (l : List (String × α)) (k k' : String) (v : α)
    (h : k' ≠ k) : assocLookup (assocSet l k v) k' = assocLookup l k' := by
  induction l with
  | nil => simp [assocSet, assocLookup, Ne.symm h]
  | cons p rest ih =>
      obtain ⟨a, w⟩ := p
      by_cases ha : a = k
      · subst ha
        simp [assocSet, assocLookup, Ne.symm h]
      · by_cases hak : a = k'
        · simp [assocSet, assocLookup, ha, hak, h]
        · simp [assocSet, assocLookup, ha, hak, ih]

theorem assocLookup_append_left {α : Type} (l l' : List (String × α)) (k : String) (g : α)
    (h : assocLookup l k = some g) : assocLookup (l ++ l') k = some g := by
  induction l with
  | nil => cases h
  | cons p rest ih =>
      obtain ⟨a, w⟩ := p
      by_cases ha : a = k
      · simpa [assocLookup, ha] using h
      · simp [assocLookup, ha] at h ⊢
        exact ih h

theorem assocLookup_append_right {α : Type} (l l' : List (String × α)) (k : String)
    (h : assocLookup l k = none) : assocLookup (l ++ l') k = assocLookup l' k := by
  induction l with
  | nil => rfl
  | cons p rest ih =>
      obtain ⟨a, w⟩ := p
      by_cases ha : a = k
      · simp [assocLookup, ha] at h
      · simp [assocLookup, ha] at h ⊢
        exact ih h

/-! ## Selection lemmas -/

theorem getServiceInstance_of_empty (st : GatewayState) (name : String)
    (h : cacheEntry st name = []) : getServiceInstance st name = (none, st) := by
  unfold getServiceInstance
  simp [h]

theorem getServiceInstance_of_ne (st : GatewayState) (name : String)
    (h : cacheEntry st name ≠ []) :
    getServiceInstance st name =
      ((cacheEntry st name).get? (selectorOf st name % (cacheEntry st name).length),
       { st with serviceSelectors := assocSet st.serviceSelectors name (selectorOf st name + 1) }) := by
  unfold getServiceInstance
  have he : (cacheEntry st name).isEmpty = false := by
    cases hc : cacheEntry st name with
    | nil => exact absurd hc h
    | cons a l => rfl
  simp [he]

theorem getServiceInstance_cacheEntry (st : GatewayState) (name n : String) :
    cacheEntry (getServiceInstance st name).2 n = cacheEntry st n := by
  by_cases h : cacheEntry st name = []
  · rw [getServiceInstance_of_empty st name h]
  · rw [getServiceInstance_of_ne st name h]
    rfl

theorem getServiceInstance_selector (st : GatewayState) (name : String)
    (h : cacheEntry st name ≠ []) :
    selectorOf (getServiceInstance st name).2 name = selectorOf st name + 1 := by
  rw [getServiceInstance_of_ne st name h]
  simp [selectorOf, assocLookup_set_self]

theorem getServiceInstance_fst (st : GatewayState) (name : String)
    (h : cacheEntry st name ≠ []) :
    (getServiceInstance st name).1 =
      (cacheEntry st name).get? (selectorOf st name % (cacheEntry st name).length) := by
  rw [getServiceInstance_of_ne st name h]

theorem getServiceInstance_mem (st : GatewayState) (name : String) (inst : ServiceInfo)
    (st' : GatewayState) (h : getServiceInstance st name = (some inst, st')) :
    inst ∈ cacheEntry st name := by
  by_cases he : cacheEntry st name = []
  · rw [getServiceInstance_of_empty st name he] at h
    cases h
  · have hf := getServiceInstance_fst st name he
    rw [h] at hf
    exact List.get?_mem hf.symm

/-- The selection sequence formula: starting from cursor `c`, the `i`-th of
`n` consecutive selections is the element at index `(c + i) % k`. -/
theorem selectSeq_eq (name : String) (svs : List ServiceInfo) (hne : svs ≠ []) :
    ∀ (n : Nat) (st : GatewayState), cacheEntry st name = svs →
      selectSeq st name n =
        (List.range n).map (fun i => svs.get? ((selectorOf st name + i) % svs.length)) := by
  intro n
  induction n with
  | zero => intro st _; simp [selectSeq]
  | succ n ih =>
      intro st h
      have hne' : cacheEntry st name ≠ [] := by rw [h]; exact hne
      have h2 : cacheEntry (getServiceInstance st name).2 name = svs := by
        rw [getServiceInstance_cacheEntry]; exact h
      have h3 := getServiceInstance_selector st name hne'
      have h1 := getServiceInstance_fst st name hne'
      show (getServiceInstance st name).1 :: selectSeq (getServiceInstance st name).2 name n = _
      rw [h1, ih _ h2, h3, h, List.range_succ_eq_map, List.map_cons, List.map_map]
      refine congrArg₂ _ (by rw [Nat.add_zero]) ?_
      refine List.map_congr_left fun i _ => ?_
      have : selectorOf st name + 1 + i = selectorOf st name + Nat.succ i := by omega
      simp [Function.comp, this]

theorem map_get?_range {α : Type} (l : List α) :
    (List.range l.length).map l.get? = l.map some := by
  induction l with
  | nil => simp
  | cons a t ih =>
      rw [List.length_cons, List.range_succ_eq_map, List.map_cons, List.map_map]
      have hc : (a :: t).get? ∘ Nat.succ = t.get? := funext fun i => rfl
      rw [hc, ih]
      rfl

/-- Rotating the cursor through `k` consecutive indices visits every index
below `k` exactly once. -/
theorem range_add_mod_perm (c k : Nat) (hk : 0 < k) :
    List.Perm ((List.range k).map fun i => (c + i) % k) (List.range k) := by
  have hnd : ((List.range k).map fun i => (c + i) % k).Nodup := by
    refine List.Nodup.map_on ?_ (List.nodup_range k)
    intro i hi j hj hij
    rw [List.mem_range] at hi hj
    have : i % k = j % k := Nat.ModEq.add_left_cancel' c hij
    rwa [Nat.mod_eq_of_lt hi, Nat.mod_eq_of_lt hj] at this
  refine List.perm_of_nodup_nodup_toFinset_eq hnd (List.nodup_range k) ?_
  refine Finset.eq_of_subset_of_card_le ?_ ?_
  · intro x hx
    rw [List.mem_toFinset] at hx ⊢
    rw [List.mem_map] at hx
    obtain ⟨i, _, rfl⟩ := hx
    rw [List.mem_range]
    exact Nat.mod_lt _ hk
  · rw [List.toFinset_card_of_nodup (List.nodup_range k), List.toFinset_card_of_nodup hnd]
    simp

/-! ## Grouping lemmas -/

theorem insertGrouped_preserves {acc : List (String × List ServiceInfo)} {x : ServiceInfo}
    {n : String} {g : List ServiceInfo} (h : assocLookup acc n = some g) :
    ∃ g', assocLookup (insertGrouped acc x) n = some g' ∧ ∀ s ∈ g, s ∈ g' := by
  unfold insertGrouped
  cases hx : assocLookup acc x.name with
  | some gx =>
      by_cases hn : x.name = n
      · subst hn
        rw [hx] at h
        injection h with h
        subst h
        exact ⟨gx ++ [x], assocLookup_set_self _ _ _, fun s hs => List.mem_append_left _ hs⟩
      · exact ⟨g, by rw [assocLookup_set_ne _ _ _ _ (Ne.symm hn)]; exact h, fun s hs => hs⟩
  | none => exact ⟨g, assocLookup_append_left _ _ _ _ h, fun s hs => hs⟩

theorem insertGrouped_self (acc : List (String × List ServiceInfo)) (x : ServiceInfo) :
    ∃ g, assocLookup (insertGrouped acc x) x.name = some g ∧ x ∈ g := by
  unfold insertGrouped
  cases hx : assocLookup acc x.name with
  | some gx =>
      exact ⟨gx ++ [x], assocLookup_set_self _ _ _, List.mem_append_right _ (List.mem_singleton_self x)⟩
  | none =>
      refine ⟨[x], ?_, List.mem_singleton_self x⟩
      rw [assocLookup_append_right _ _ _ hx]
      simp [assocLookup]

theorem groupInto_preserves :
    ∀ (svs : List ServiceInfo) (acc : List (String × List ServiceInfo))
      (n : String) (g : List ServiceInfo), assocLookup acc n = some g →
      ∃ g', assocLookup (groupInto acc svs) n = some g' ∧ ∀ s ∈ g, s ∈ g' := by
  intro svs
  induction svs with
  | nil => intro acc n g h; exact ⟨g, h, fun s hs => hs⟩
  | cons x rest ih =>
      intro acc n g h
      obtain ⟨g1, h1, hsub1⟩ := insertGrouped_preserves h
      obtain ⟨g2, h2, hsub2⟩ := ih _ _ _ h1
      exact ⟨g2, h2, fun s hs => hsub2 s (hsub1 s hs)⟩

theorem groupInto_mem :
    ∀ (svs : List ServiceInfo) (acc : List (String × List ServiceInfo))
      (s : ServiceInfo), s ∈ svs →
      ∃ g, assocLookup (groupInto acc svs) s.name = some g ∧ s ∈ g := by
  intro svs
  induction svs with
  | nil => intro acc s hs; cases hs
  | cons x rest ih =>
      intro acc s hs
      rcases List.mem_cons.mp hs with rfl | hs'
      · obtain ⟨g, hg, hmem⟩ := insertGrouped_self acc s
        obtain ⟨g', hg', hsub⟩ := groupInto_preserves rest _ _ _ hg
        exact ⟨g', hg', hsub s hmem⟩
      · exact ih _ s hs'

/-- Every instance the registry listed lands in the grouped cache under its
name — regardless of its status. -/
theorem groupByName_mem (svs : List ServiceInfo) (s : ServiceInfo) (hs : s ∈ svs) :
    s ∈ (assocLookup (groupByName svs) s.name).getD [] := by
  obtain ⟨g, hg, hmem⟩ := groupInto_mem svs [] s hs
  rw [groupByName, hg]
  exact hmem

/-! ## Proxy-handler lemmas -/

/-- The outbound headers the proxy builds for a request and a selected
instance: the inbound headers with `x-correlation-id` set, plus the identity
headers when a principal is attached. -/
def proxyHeaders (req : InboundRequest) (freshId : String) : List (String × String) :=
  let hs1 := assocSet req.headers "x-correlation-id" (outCorrelationId req freshId)
  match req.user with
  | some u => assocSet (assocSet hs1 "x-user-id" u.id) "x-user-roles" (rolesEncode u.roles)
  | none => hs1

theorem proxyAfterCache_of_empty (serviceName : String) (st : GatewayState)
    (freshId : String) (req : InboundRequest) (h : cacheEntry st serviceName = []) :
    proxyAfterCache serviceName st freshId req =
      (ProxyOutcome.errorResponse 503 ("Service " ++ serviceName ++ " is not available"), st) := by
  unfold proxyAfterCache
  rw [getServiceInstance_of_empty st serviceName h]

theorem proxyAfterCache_of_none (serviceName : String) (st : GatewayState)
    (freshId : String) (req : InboundRequest) (st2 : GatewayState)
    (h : getServiceInstance st serviceName = (none, st2)) :
    proxyAfterCache serviceName st freshId req =
      (ProxyOutcome.errorResponse 503 ("Service " ++ serviceName ++ " is not available"), st2) := by
  unfold proxyAfterCache
  rw [h]

theorem proxyAfterCache_of_inst (serviceName : String) (st : GatewayState)
    (freshId : String) (req : InboundRequest) (inst : ServiceInfo) (st2 : GatewayState)
    (h : getServiceInstance st serviceName = (some inst, st2)) :
    proxyAfterCache serviceName st freshId req =
      (ProxyOutcome.forward
        { targetUrl := inst.url
          path := pathRewrite serviceName req.path
          method := req.method
          body := req.body
          headers := proxyHeaders req freshId }, st2) := by
  unfold proxyAfterCache
  rw [h]
  cases hu : req.user <;> simp [proxyHeaders, hu]

/-- Inversion: a forwarded outcome comes from a successful selection on the
post-maintenance state, and the outbound request is exactly the rewritten,
header-tagged copy of the inbound one. -/
theorem forward_inv (serviceName : String) (st : GatewayState) (now : Nat)
    (fetch : Except Unit (List ServiceInfo)) (freshId : String) (req : InboundRequest)
    (out : OutboundRequest) (st' : GatewayState)
    (heq : createServiceProxy serviceName st now fetch freshId req =
      (ProxyOutcome.forward out, st')) :
    ∃ inst, getServiceInstance (proxyCacheState st now fetch) serviceName = (some inst, st') ∧
      out = { targetUrl := inst.url
              path := pathRewrite serviceName req.path
              method := req.method
              body := req.body
              headers := proxyHeaders req freshId } := by
  unfold createServiceProxy at heq
  rcases hg : getServiceInstance (proxyCacheState st now fetch) serviceName with ⟨r, st2⟩
  cases r with
  | none =>
      rw [proxyAfterCache_of_none serviceName _ freshId req st2 hg] at heq
      cases heq
  | some inst =>
      rw [proxyAfterCache_of_inst serviceName _ freshId req inst st2 hg] at heq
      injection heq with h1 h2
      injection h1 with h1
      subst h2
      exact ⟨inst, rfl, h1.symm⟩

theorem forward_headers_cid (req : InboundRequest) (freshId : String) :
    assocLookup (proxyHeaders req freshId) "x-correlation-id" =
      some (outCorrelationId req freshId) := by
  cases hu : req.user <;>
    simp [proxyHeaders, hu, assocLookup_set_self,
      assocLookup_set_ne _ _ _ _ (by decide : ("x-correlation-id" : String) ≠ "x-user-roles"),
      assocLookup_set_ne _ _ _ _ (by decide : ("x-correlation-id" : String) ≠ "x-user-id")]

theorem forward_headers_other (req : InboundRequest) (freshId : String) (k : String)
    (h1 : k ≠ "x-correlation-id") (h2 : k ≠ "x-user-id") (h3 : k ≠ "x-user-roles") :
    assocLookup (proxyHeaders req freshId) k = assocLookup req.headers k := by
  cases hu : req.user <;>
    simp [proxyHeaders, hu, assocLookup_set_ne _ _ _ _ h1,
      assocLookup_set_ne _ _ _ _ h2, assocLookup_set_ne _ _ _ _ h3]

theorem forward_headers_user (req : InboundRequest) (freshId : String) (u : Principal)
    (hu : req.user = some u) :
    assocLookup (proxyHeaders req freshId) "x-user-id" = some u.id ∧
    assocLookup (proxyHeaders req freshId) "x-user-roles" = some (rolesEncode u.roles) := by
  constructor <;>
    simp [proxyHeaders, hu, assocLookup_set_self,
      assocLookup_set_ne _ _ _ _ (by decide : ("x-user-id" : String) ≠ "x-user-roles")]

/-! ## Claim C1 -/

/-- Claim C1 is false on the code: starting from the initial state, one
successful refresh caches the registry listing as-is — including an instance
whose status is `stale` (the registry still lists stale instances) — and the
very next selection for its name yields that non-active instance.  Neither
the cache nor `getServiceInstance` filters on `status = "active"`. -/
theorem c1_counterexample :
    (getServiceInstance (refreshServiceCache initialState 60000 (Except.ok [staleInst]))
        "content-service").1 = some staleInst ∧
    staleInst.status ≠ "active" := by decide

/-- Claim C1 (amended): instance selection draws from the full cached entry
for the logical name with no status filtering: a selected instance is always
a member of the raw cached list — whatever its status — and a refresh caches
every instance the registry listed for a name, active or not, so a stale
instance remains selectable as long as it is listed. -/
theorem c1_amended_selection_unfiltered (st : GatewayState) (name : String)
    (inst : ServiceInfo) (st' : GatewayState) (svs : List ServiceInfo) :
    (getServiceInstance st name = (some inst, st') → inst ∈ cacheEntry st name) ∧
    (∀ s ∈ svs, s ∈ (assocLookup (groupByName svs) s.name).getD []) :=
  ⟨fun h => getServiceInstance_mem st name inst st' h,
   fun s hs => groupByName_mem svs s hs⟩

/-- Claim C1 amended witness: the stale instance is indeed in the cached
entry it is selected from, and grouping a listing that contains it does keep
it. -/
theorem c1_amended_witness :
    staleInst ∈ cacheEntry stStaleOnly "content-service" ∧
    staleInst ∈ (assocLookup (groupByName [instA, staleInst]) staleInst.name).getD [] :=
  ⟨(c1_amended_selection_unfiltered stStaleOnly "content-service" staleInst stStaleAfter
      [instA, staleInst]).1 (by decide),
   (c1_amended_selection_unfiltered stStaleOnly "content-service" staleInst stStaleAfter
      [instA, staleInst]).2 staleInst (by decide)⟩

/-! ## Claim C2 -/

/-- Claim C2: cache refresh is all-or-nothing and state-preserving on error:
a failed fetch leaves the whole prior state — cache, timestamp, every cached
entry a lookup can return — unchanged, while a successful refresh (once the
TTL has elapsed) replaces the entire cached map and the timestamp in one
whole-snapshot swap, the new map depending only on the fetched listing and
never merging with the old one. -/
theorem c2_refresh_atomic_stale_on_error (st : GatewayState) (now : Nat)
    (svs : List ServiceInfo) (h : SERVICE_CACHE_TTL ≤ now - st.lastCacheUpdate) :
    refreshServiceCache st now (Except.error ()) = st ∧
    (∀ name, cacheEntry (refreshServiceCache st now (Except.error ())) name =
      cacheEntry st name) ∧
    refreshServiceCache st now (Except.ok svs) =
      { st with serviceCache := groupByName svs, lastCacheUpdate := now } := by
  have hlt : ¬(now - st.lastCacheUpdate < SERVICE_CACHE_TTL) := not_lt.mpr h
  refine ⟨?_, ?_, ?_⟩ <;> simp [refreshServiceCache, hlt]

/-- Claim C2 witness: at a cold state with the TTL elapsed, a failed fetch
changes nothing and a successful fetch installs the grouped listing whole. -/
theorem c2_witness :
    refreshServiceCache initialState 60000 (Except.error ()) = initialState ∧
    (∀ name, cacheEntry (refreshServiceCache initialState 60000 (Except.error ())) name =
      cacheEntry initialState name) ∧
    refreshServiceCache initialState 60000 (Except.ok [instA]) =
      { initialState with serviceCache := groupByName [instA], lastCacheUpdate := 60000 } :=
  c2_refresh_atomic_stale_on_error initialState 60000 [instA] (by decide)

/-! ## Claim C3 -/

/-- Claim C3: under stable cached membership of `k` instances for one logical
name, the `i`-th consecutive `getServiceInstance` call returns the instance
at index `(cursor + i) mod k` — the cursor incremented once per call — and
`k` consecutive calls return each cached instance exactly once, in cached
(registration) order. -/
theorem c3_round_robin_rotation (st : GatewayState) (name : String)
    (svs : List ServiceInfo) (h1 : cacheEntry st name = svs) (h2 : svs ≠ []) :
    (∀ n, selectSeq st name n =
        (List.range n).map fun i => svs.get? ((selectorOf st name + i) % svs.length)) ∧
    List.Perm (selectSeq st name svs.length) (svs.map some) := by
  have hf := selectSeq_eq name svs h2
  refine ⟨fun n => hf n st h1, ?_⟩
  rw [hf svs.length st h1]
  have hk : 0 < svs.length := List.length_pos.mpr h2
  have hcomp :
      ((List.range svs.length).map fun i => svs.get? ((selectorOf st name + i) % svs.length)) =
        ((List.range svs.length).map fun i => (selectorOf st name + i) % svs.length).map
          svs.get? := by
    rw [List.map_map]
    rfl
  rw [hcomp]
  have hp := List.Perm.map svs.get? (range_add_mod_perm (selectorOf st name) svs.length hk)
  rwa [map_get?_range] at hp

/-- Claim C3 witness: with A, B, C registered for content-service in that
order, four consecutive selections yield A, B, C, A. -/
theorem c3_witness :
    selectSeq stABC "content-service" 4 =
      [some instA, some instB, some instC, some instA] :=
  ((c3_round_robin_rotation stABC "content-service" [instA, instB, instC]
      (by decide) (by decide)).1 4).trans (by decide)

/-! ## Claim C4 -/

/-- Claim C4 is false on the code: for content-service the cache holds zero
active (healthy) instances — only a stale one — yet selection does not fail
with ServiceUnavailableError: the proxy forwards the request to the stale
instance instead of answering 503, because the emptiness check looks at the
raw cached list, not at the healthy subset. -/
theorem c4_counterexample :
    (∀ i ∈ cacheEntry stStaleOnly "content-service", i.status ≠ "active") ∧
    (createServiceProxy "content-service" stStaleOnly 60000 (Except.error ()) "req-4"
        reqContent).1 =
      ProxyOutcome.forward
        { targetUrl := "http://h9:3003", path := "/posts", method := "GET", body := "",
          headers := [("x-correlation-id", "req-4")] } ∧
    (createServiceProxy "content-service" stStaleOnly 60000 (Except.error ()) "req-4"
        reqContent).1 ≠
      ProxyOutcome.errorResponse 503 "Service content-service is not available" := by decide

/-- Claim C4 (amended): selection fails exactly on an empty cached entry:
for a name whose cached entry (after the in-handler cache maintenance) is
empty, the proxy always answers 503 "Service <name> is not available"; and a
forwarded outcome always targets an instance drawn from the cached entry —
the proxied route never sees a null/undefined instance. -/
theorem c4_amended_empty_entry_503 (serviceName : String) (st : GatewayState)
    (now : Nat) (fetch : Except Unit (List ServiceInfo)) (freshId : String)
    (req : InboundRequest) :
    (cacheEntry (proxyCacheState st now fetch) serviceName = [] →
      createServiceProxy serviceName st now fetch freshId req =
        (ProxyOutcome.errorResponse 503 ("Service " ++ serviceName ++ " is not available"),
         proxyCacheState st now fetch)) ∧
    (∀ out st', createServiceProxy serviceName st now fetch freshId req =
        (ProxyOutcome.forward out, st') →
      ∃ inst ∈ cacheEntry (proxyCacheState st now fetch) serviceName,
        out.targetUrl = inst.url) := by
  constructor
  · intro h
    unfold createServiceProxy
    rw [proxyAfterCache_of_empty _ _ _ _ h]
  · intro out st' heq
    obtain ⟨inst, hg, hout⟩ := forward_inv _ _ _ _ _ _ _ _ heq
    refine ⟨inst, getServiceInstance_mem _ _ _ _ hg, ?_⟩
    rw [hout]

/-- Claim C4 amended witness: a name with no cached entry at all is answered
503 Service not available. -/
theorem c4_witness :
    createServiceProxy "mediaservice" stAuth 60000 (Except.error ()) "r" reqContent =
      (ProxyOutcome.errorResponse 503 ("Service " ++ "mediaservice" ++ " is not available"),
       proxyCacheState stAuth 60000 (Except.error ())) :=
  (c4_amended_empty_entry_503 "mediaservice" stAuth 60000 (Except.error ()) "r" reqContent).1
    (by decide)

/-! ## Claim C5 -/

/-- Claim C5 is false on the code: the proxy handler awaits the registry
fetch inside the request when the cache is stale beyond the TTL — the
response is computed from the post-refresh snapshot, so it depends on the
fetch's outcome: the same request is forwarded to the freshly fetched
instance when the fetch succeeds, and to the previously cached instance when
the fetch fails.  The caller is therefore made to wait on the registry fetch
before an instance is selected. -/
theorem c5_counterexample :
    (createServiceProxy "auth-service" stOldAuth 60000 (Except.ok [authInst]) "req-5"
        reqPlain).1 =
      ProxyOutcome.forward
        { targetUrl := "http://ah:3002", path := "/login", method := "GET", body := "",
          headers := [("accept", "application/json"), ("x-correlation-id", "req-5")] } ∧
    (createServiceProxy "auth-service" stOldAuth 60000 (Except.error ()) "req-5"
        reqPlain).1 =
      ProxyOutcome.forward
        { targetUrl := "http://oldh:3002", path := "/login", method := "GET", body := "",
          headers := [("accept", "application/json"), ("x-correlation-id", "req-5")] } := by
  decide

/-- Claim C5 (amended): when the cached snapshot is fresh (within the TTL)
the handler serves from the cache without consulting the registry — the
response is independent of the fetch; but when the cache is stale beyond the
TTL the handler awaits the refresh synchronously and selects from the
post-refresh state: discovery does sit on the request path in that case. -/
theorem c5_amended_refresh_blocks_request (serviceName : String) (st : GatewayState)
    (now : Nat) (f f' : Except Unit (List ServiceInfo)) (freshId : String)
    (req : InboundRequest) :
    (now - st.lastCacheUpdate < SERVICE_CACHE_TTL →
      createServiceProxy serviceName st now f freshId req =
        createServiceProxy serviceName st now f' freshId req) ∧
    (SERVICE_CACHE_TTL ≤ now - st.lastCacheUpdate →
      createServiceProxy serviceName st now f freshId req =
        proxyAfterCache serviceName (refreshServiceCache st now f) freshId req) := by
  constructor
  · intro h
    unfold createServiceProxy proxyCacheState
    rw [if_neg (not_le.mpr h), if_neg (not_le.mpr h)]
  · intro h
    unfold createServiceProxy proxyCacheState
    rw [if_pos h]

/-- Claim C5 amended witness: with a fresh cache the response ignores the
fetch; with a stale cache the handler is the composition of the synchronous
refresh and the post-refresh selection. -/
theorem c5_witness :
    createServiceProxy "auth-service" stAuth 60000 (Except.ok []) "r" reqPlain =
      createServiceProxy "auth-service" stAuth 60000 (Except.error ()) "r" reqPlain ∧
    createServiceProxy "auth-service" stOldAuth 60000 (Except.error ()) "r" reqPlain =
      proxyAfterCache "auth-service" (refreshServiceCache stOldAuth 60000 (Except.error ()))
        "r" reqPlain :=
  ⟨(c5_amended_refresh_blocks_request "auth-service" stAuth 60000 (Except.ok [])
      (Except.error ()) "r" reqPlain).1 (by decide),
   (c5_amended_refresh_blocks_request "auth-service" stOldAuth 60000 (Except.error ())
      (Except.error ()) "r" reqPlain).2 (by decide)⟩

/-! ## Claim C6 -/

/-- Claim C6 is false on the code: on an upstream connection failure the
proxy's onError hook answers HTTP 500 — a generic internal-error status —
not the claimed distinct 503/504 gateway statuses. -/
theorem c6_counterexample :
    proxyOnError "auth-service" "ECONNREFUSED" = (500, "Service communication error") ∧
    (proxyOnError "auth-service" "ECONNREFUSED").1 ≠ 503 ∧
    (proxyOnError "auth-service" "ECONNREFUSED").1 ≠ 504 := by decide

/-- Claim C6 (amended): on connection failure or timeout of the upstream
call the gateway answers the original caller with HTTP 500 and the fixed
body "Service communication error", whatever the transport error was — it
never leaks the raw transport fault, but it does not use the distinct
503/504 gateway statuses either. -/
theorem c6_amended_error_500 (serviceName err : String) :
    proxyOnError serviceName err = (500, "Service communication error") := rfl

/-! ## Claim C7 -/

/-- Claim C7 is false on the code at one input: a request carrying the
inbound header `x-correlation-id` with the empty value does not see that
exact value reappear: the falsy check `headers['x-correlation-id'] ||
freshId` replaces the empty string by the generated id. -/
theorem c7_counterexample :
    assocLookup reqEmptyCid.headers "x-correlation-id" = some "" ∧
    (createServiceProxy "auth-service" stAuth 60000 (Except.error ()) "req-7"
        reqEmptyCid).1 =
      ProxyOutcome.forward
        { targetUrl := "http://ah:3002", path := "/login", method := "GET", body := "",
          headers := [("x-correlation-id", "req-7")] } ∧
    ("req-7" : String) ≠ "" := by decide

/-- Claim C7 (amended): a non-empty inbound `x-correlation-id` reappears
unchanged on the outbound upstream request; when the header is absent — or
present but empty, which the falsy check treats as absent — the freshly
generated id is used instead; and a forwarded request always carries some
correlation id. -/
theorem c7_amended_correlation (serviceName : String) (st : GatewayState) (now : Nat)
    (fetch : Except Unit (List ServiceInfo)) (freshId : String) (req : InboundRequest)
    (out : OutboundRequest) (st' : GatewayState)
    (heq : createServiceProxy serviceName st now fetch freshId req =
      (ProxyOutcome.forward out, st')) :
    (∀ v, assocLookup req.headers "x-correlation-id" = some v → v ≠ "" →
      assocLookup out.headers "x-correlation-id" = some v) ∧
    (assocLookup req.headers "x-correlation-id" = none →
      assocLookup out.headers "x-correlation-id" = some freshId) ∧
    (∃ c, assocLookup out.headers "x-correlation-id" = some c) := by
  obtain ⟨inst, hg, hout⟩ := forward_inv _ _ _ _ _ _ _ _ heq
  have hh : out.headers = proxyHeaders req freshId := by rw [hout]
  have hcid := forward_headers_cid req freshId
  refine ⟨?_, ?_, ⟨outCorrelationId req freshId, by rw [hh]; exact hcid⟩⟩
  · intro v hv hne
    rw [hh, hcid]
    unfold outCorrelationId
    rw [hv]
    simp [hne]
  · intro hnone
    rw [hh, hcid]
    unfold outCorrelationId
    rw [hnone]

/-- Claim C7 amended witness: the inbound id abc123 reappears unchanged on
the outbound request. -/
theorem c7_witness :
    assocLookup c9Out.headers "x-correlation-id" = some "abc123" ∧
    (∃ c, assocLookup c9Out.headers "x-correlation-id" = some c) :=
  have h := c7_amended_correlation "auth-service" stAuth 60000 (Except.error ()) "req-9"
    reqCid c9Out stAuthAfter (by decide)
  ⟨h.1 "abc123" (by decide) (by decide), h.2.2⟩

/-! ## Claim C8 -/

/-- Claim C8: the auth gate rejects a request with no authorization
credential with 401 (also when the header carries no token part), rejects a
token the verifier refuses (bad signature or expired) with 403, and on
successful verification attaches the decoded principal — which the router
forwards as the identity headers x-user-id and x-user-roles. -/
theorem c8_auth_gate (verify : String → Option Principal) (s t : String) (p : Principal)
    (serviceName : String) (st : GatewayState) (now : Nat)
    (fetch : Except Unit (List ServiceInfo)) (freshId : String) (req : InboundRequest)
    (out : OutboundRequest) (st' : GatewayState) :
    authenticateJWT verify none = AuthOutcome.reject 401 "Authorization header missing" ∧
    (s ≠ "" → headerToken s = none →
      authenticateJWT verify (some s) = AuthOutcome.reject 401 "Token not provided") ∧
    (s ≠ "" → headerToken s = some t → t ≠ "" → verify t = none →
      authenticateJWT verify (some s) = AuthOutcome.reject 403 "Invalid or expired token") ∧
    (s ≠ "" → headerToken s = some t → t ≠ "" → verify t = some p →
      authenticateJWT verify (some s) = AuthOutcome.allow p) ∧
    (req.user = some p →
      createServiceProxy serviceName st now fetch freshId req =
        (ProxyOutcome.forward out, st') →
      assocLookup out.headers "x-user-id" = some p.id ∧
      assocLookup out.headers "x-user-roles" = some (rolesEncode p.roles)) := by
  refine ⟨rfl, ?_, ?_, ?_, ?_⟩
  · intro hs hn
    simp [authenticateJWT, hs, hn]
  · intro hs ht htne hv
    simp [authenticateJWT, hs, ht, htne, hv]
  · intro hs ht htne hv
    simp [authenticateJWT, hs, ht, htne, hv]
  · intro hu heq
    obtain ⟨inst, hg, hout⟩ := forward_inv _ _ _ _ _ _ _ _ heq
    have hh : out.headers = proxyHeaders req freshId := by rw [hout]
    rw [hh]
    exact forward_headers_user req freshId p hu

/-- Claim C8 witness: missing header 401, missing token 401, bad token 403,
good token allowed with its principal, and the identity headers on the
forwarded request. -/
theorem c8_witness :
    authenticateJWT verifyConc none = AuthOutcome.reject 401 "Authorization header missing" ∧
    authenticateJWT verifyConc (some "Bearer") = AuthOutcome.reject 401 "Token not provided" ∧
    authenticateJWT verifyConc (some "Bearer bad") =
      AuthOutcome.reject 403 "Invalid or expired token" ∧
    authenticateJWT verifyConc (some "Bearer tok") = AuthOutcome.allow principalA ∧
    (assocLookup c8Out.headers "x-user-id" = some principalA.id ∧
     assocLookup c8Out.headers "x-user-roles" = some (rolesEncode principalA.roles)) :=
  ⟨(c8_auth_gate verifyConc "Bearer tok" "tok" principalA "content-service" stABC 60000
      (Except.error ()) "req-1" reqAuthed c8Out stABCAfter).1,
   (c8_auth_gate verifyConc "Bearer" "tok" principalA "content-service" stABC 60000
      (Except.error ()) "req-1" reqAuthed c8Out stABCAfter).2.1 (by decide) (by decide),
   (c8_auth_gate verifyConc "Bearer bad" "bad" principalA "content-service" stABC 60000
      (Except.error ()) "req-1" reqAuthed c8Out stABCAfter).2.2.1 (by decide) (by decide)
      (by decide) (by decide),
   (c8_auth_gate verifyConc "Bearer tok" "tok" principalA "content-service" stABC 60000
      (Except.error ()) "req-1" reqAuthed c8Out stABCAfter).2.2.2.1 (by decide) (by decide)
      (by decide) (by decide),
   (c8_auth_gate verifyConc "Bearer tok" "tok" principalA "content-service" stABC 60000
      (Except.error ()) "req-1" reqAuthed c8Out stABCAfter).2.2.2.2 rfl (by decide)⟩

/-! ## Claim C9 -/

theorem dropIfStarts_append : ∀ (pat rest : List Char),
    dropIfStarts pat (pat ++ rest) = some rest
  | [], _ => rfl
  | p :: ps, rest => by simp [dropIfStarts, dropIfStarts_append ps rest]

/-- Claim C9: for a request proxied for logical name S, the outbound path is
the inbound path with a leading "/api/S" stripped — "/" when the strip
leaves nothing — and method, body and all remaining headers (those other
than the gateway-set x-correlation-id / x-user-id / x-user-roles) are
forwarded unmodified, targeting the selected instance's base URL. -/
theorem c9_path_rewrite_forward (serviceName : String) (st : GatewayState) (now : Nat)
    (fetch : Except Unit (List ServiceInfo)) (freshId : String) (req : InboundRequest)
    (out : OutboundRequest) (st' : GatewayState)
    (heq : createServiceProxy serviceName st now fetch freshId req =
      (ProxyOutcome.forward out, st')) :
    (∀ rest : List Char,
      pathRewrite serviceName (String.mk (("/api/" ++ serviceName).data ++ rest)) =
        if rest = [] then "/" else String.mk rest) ∧
    out.path = pathRewrite serviceName req.path ∧
    out.method = req.method ∧
    out.body = req.body ∧
    (∃ inst ∈ cacheEntry (proxyCacheState st now fetch) serviceName,
      out.targetUrl = inst.url) ∧
    (∀ k, k ≠ "x-correlation-id" → k ≠ "x-user-id" → k ≠ "x-user-roles" →
      assocLookup out.headers k = assocLookup req.headers k) := by
  obtain ⟨inst, hg, hout⟩ := forward_inv _ _ _ _ _ _ _ _ heq
  refine ⟨?_, by rw [hout], by rw [hout], by rw [hout],
    ⟨inst, getServiceInstance_mem _ _ _ _ hg, by rw [hout]⟩, ?_⟩
  · intro rest
    unfold pathRewrite
    rw [show (String.mk (("/api/" ++ serviceName).data ++ rest)).data =
          ("/api/" ++ serviceName).data ++ rest from rfl,
        dropIfStarts_append]
  · intro k h1 h2 h3
    have hh : out.headers = proxyHeaders req freshId := by rw [hout]
    rw [hh]
    exact forward_headers_other req freshId k h1 h2 h3

/-- Claim C9 witness: the login request is forwarded with the prefix
stripped to /login, method, body and the accept header untouched. -/
theorem c9_witness :
    c9Out.path = pathRewrite "auth-service" reqCid.path ∧
    c9Out.method = reqCid.method ∧
    c9Out.body = reqCid.body ∧
    assocLookup c9Out.headers "accept" = assocLookup reqCid.headers "accept" :=
  have h := c9_path_rewrite_forward "auth-service" stAuth 60000 (Except.error ()) "req-9"
    reqCid c9Out stAuthAfter (by decide)
  ⟨h.2.1, h.2.2.1, h.2.2.2.1, h.2.2.2.2.2 "accept" (by decide) (by decide) (by decide)⟩

/-! ## Claim C10 -/

theorem proxyAfterCache_forward_of_ne (serviceName : String) (st : GatewayState)
    (freshId : String) (req : InboundRequest) (h : cacheEntry st serviceName ≠ []) :
    ∃ out st2, proxyAfterCache serviceName st freshId req =
      (ProxyOutcome.forward out, st2) := by
  have hlen : 0 < (cacheEntry st serviceName).length := List.length_pos.mpr h
  have hidx : selectorOf st serviceName % (cacheEntry st serviceName).length <
      (cacheEntry st serviceName).length := Nat.mod_lt _ hlen
  have hgsi := getServiceInstance_of_ne st serviceName h
  rw [List.get?_eq_get hidx] at hgsi
  exact ⟨_, _, proxyAfterCache_of_inst serviceName st freshId req _ _ hgsi⟩

/-- Claim C10 is false on the code: at cold start (empty cache, timestamp 0)
with the registry already holding an active instance for the name, a proxied
request is not answered 503 — the awaited in-path refresh populates the
cache inside the very first request, and the request is forwarded. -/
theorem c10_counterexample :
    cacheEntry initialState "auth-service" = [] ∧
    (createServiceProxy "auth-service" initialState 60000 (Except.ok [authInst]) "req-10"
        reqPlain).1 =
      ProxyOutcome.forward
        { targetUrl := "http://ah:3002", path := "/login", method := "GET", body := "",
          headers := [("accept", "application/json"), ("x-correlation-id", "req-10")] } ∧
    (createServiceProxy "auth-service" initialState 60000 (Except.ok [authInst]) "req-10"
        reqPlain).1 ≠
      ProxyOutcome.errorResponse 503 "Service auth-service is not available" := by decide

/-- Claim C10 (amended): the discovery cache does start empty — in the
initial state getServiceInstance returns null for every name — but a cold
start proxied request is answered 503 Service-not-available only when its
awaited in-path refresh fails or caches no instances for the name; when the
registry fetch succeeds with instances for the name, that very first request
is already forwarded rather than answered 503. -/
theorem c10_amended_cold_start (name serviceName : String) (now : Nat)
    (freshId : String) (req : InboundRequest) (svs : List ServiceInfo)
    (hnow : SERVICE_CACHE_TTL ≤ now) :
    getServiceInstance initialState name = (none, initialState) ∧
    (createServiceProxy serviceName initialState now (Except.error ()) freshId req).1 =
      ProxyOutcome.errorResponse 503 ("Service " ++ serviceName ++ " is not available") ∧
    (cacheEntry (refreshServiceCache initialState now (Except.ok svs)) serviceName ≠ [] →
      ∃ out, (createServiceProxy serviceName initialState now (Except.ok svs) freshId req).1 =
        ProxyOutcome.forward out) := by
  have hz : now - initialState.lastCacheUpdate = now := by simp [initialState]
  have hpcsErr : proxyCacheState initialState now (Except.error ()) = initialState := by
    unfold proxyCacheState refreshServiceCache
    rw [hz, if_pos hnow, if_neg (not_lt.mpr hnow)]
  have hpcsOk : proxyCacheState initialState now (Except.ok svs) =
      refreshServiceCache initialState now (Except.ok svs) := by
    unfold proxyCacheState
    rw [hz, if_pos hnow]
  refine ⟨getServiceInstance_of_empty initialState name rfl, ?_, ?_⟩
  · unfold createServiceProxy
    rw [hpcsErr, proxyAfterCache_of_empty serviceName initialState freshId req rfl]
  · intro hR
    obtain ⟨out, st2, hpo⟩ := proxyAfterCache_forward_of_ne serviceName _ freshId req hR
    refine ⟨out, ?_⟩
    unfold createServiceProxy
    rw [hpcsOk, hpo]

/-- Claim C10 amended witness: null selection on the cold cache; 503 when
the cold-start fetch fails; a forward when it succeeds. -/
theorem c10_witness :
    getServiceInstance initialState "auth-service" = (none, initialState) ∧
    (createServiceProxy "auth-service" initialState 60000 (Except.error ()) "r" reqPlain).1 =
      ProxyOutcome.errorResponse 503 ("Service " ++ "auth-service" ++ " is not available") ∧
    (∃ out, (createServiceProxy "auth-service" initialState 60000 (Except.ok [authInst]) "r"
        reqPlain).1 = ProxyOutcome.forward out) :=
  have h := c10_amended_cold_start "auth-service" "auth-service" 60000 "r" reqPlain
    [authInst] (by decide)
  ⟨h.1, h.2.1, h.2.2 (by decide)⟩

end Gateway
